import Mathlib

/-!
Verification development for the camctrl ONVIF camera-control program.

The program's core is (a) the service-resolution bootstrap in
src/device.rs (Device::new and the small operations built on it) and
(b) the multicast discovery client in src/discovery.rs.  We embed both
as pure Lean functions.  External collaborators (the url crate, the
ONVIF transport, the UDP socket) are passed in as explicit function
arguments, so theorems quantify over every possible collaborator
behavior; network activity is made observable through explicit call
traces returned alongside each result.
-/

set_option autoImplicit false

namespace Camctrl

/-- Model of url::Url, keeping exactly the structure the program uses:
a rendered scheme-plus-authority part and a path.  as_str renders the
whole URL; set_path replaces the path component, preserving the rest. -/
structure Url where
  base : String
  path : String
deriving DecidableEq, Repr

/-- url::Url::as_str (also its Display rendering). -/
def Url.asStr (u : Url) : String := u.base ++ u.path

/-- url::Url::set_path. -/
def Url.setPath (u : Url) (p : String) : Url := { u with path := p }

/-- str::starts_with, the string-prefix test used on rendered URLs,
computed on the character list so concrete instances evaluate. -/
def strStartsWith (s pre : String) : Bool := pre.data.isPrefixOf s.data

/-- soap::client::Credentials from device.rs. -/
structure Credentials where
  username : String
  password : String
deriving DecidableEq, Repr

/-- A soap::client::Client as produced by ClientBuilder::new(uri)
.credentials(creds).timeout(t).build(). -/
structure Client where
  uri : Url
  creds : Option Credentials
  timeoutSecs : Nat
deriving DecidableEq, Repr

/-- ClientBuilder::new(uri).credentials(creds).timeout(t).build(). -/
def Client.build (uri : Url) (creds : Option Credentials) (timeoutSecs : Nat) : Client :=
  ⟨uri, creds, timeoutSecs⟩

/-- Device::SERVICE_TIMEOUT, in seconds. -/
def serviceTimeout : Nat := 10

/-- The transport collaborator error, transport::Error: an Authorization
variant carrying a message, and all remaining variants collapsed into
Other (the program only ever distinguishes Authorization). -/
inductive TransportError where
  | Authorization (msg : String)
  | Other (msg : String)
deriving DecidableEq, Repr

/-- DeviceError from device.rs. -/
inductive DeviceError where
  | UnexpectedBehavior (msg : String)
  | Transport (err : TransportError)
  | Unauthorized (msg : String)
  | Unknown (msg : Option String)
deriving DecidableEq, Repr

/-- impl From of transport::Error for DeviceError:
Authorization maps to Unauthorized, everything else to Transport. -/
def DeviceError.fromTransport : TransportError → DeviceError
  | .Authorization e => .Unauthorized e
  | e => .Transport e

/-- A service descriptor from the GetServices response: the advertised
address string x_addr plus the namespace string.  (The Rust field is
called namespace, which is a Lean keyword.) -/
structure Service where
  x_addr : String
  namespaceUri : String
deriving DecidableEq, Repr

/-- The Device struct of device.rs: the device-management client plus
seven optional per-service clients. -/
structure Device where
  devicemgmt : Client
  event : Option Client
  deviceio : Option Client
  media : Option Client
  media2 : Option Client
  imaging : Option Client
  ptz : Option Client
  analytics : Option Client
deriving DecidableEq, Repr

/-- The credential-pairing check at the top of Device::new: both
present builds credentials, both absent builds none, and a mixed pair
is an immediate Unauthorized error. -/
def credsFor (user pass : Option String) : Except DeviceError (Option Credentials) :=
  match user, pass with
  | some username, some password => .ok (some ⟨username, password⟩)
  | none, none => .ok none
  | _, _ => .error (.Unauthorized "Username and password must be specified together")

/-- The Device value Device::new holds right after constructing the
primary client, with every optional service slot still empty. -/
def initialDevice (devicemgmt_uri : Url) (creds : Option Credentials) : Device :=
  ⟨Client.build devicemgmt_uri creds serviceTimeout,
    none, none, none, none, none, none, none⟩

/-- The body of the for-loop in Device::new for a single service
descriptor.  parseUrl stands for Url::parse of the url crate (its
error already rendered to a string, as the code does with to_string). -/
def procService (parseUrl : String → Except String Url) (creds : Option Credentials)
    (devicemgmt_uri base_uri : Url) (out : Device) (s : Service) :
    Except DeviceError Device :=
  match parseUrl s.x_addr with
  | .error e => .error (.Unknown (some e))
  | .ok url =>
    if !(strStartsWith url.asStr base_uri.asStr) then
      .error (.UnexpectedBehavior
        ("Service URI " ++ s.x_addr ++ " is not within base URI " ++ base_uri.asStr))
    else
      let svc := some (Client.build url creds serviceTimeout)
      if s.namespaceUri = "http://www.onvif.org/ver10/device/wsdl" then
        if s.x_addr ≠ devicemgmt_uri.asStr then
          .error (.UnexpectedBehavior
            ("advertised device mgmt uri " ++ s.x_addr ++ " not expected "
              ++ devicemgmt_uri.asStr))
        else
          .ok out
      else if s.namespaceUri = "http://www.onvif.org/ver10/events/wsdl" then
        .ok { out with event := svc }
      else if s.namespaceUri = "http://www.onvif.org/ver10/deviceIO/wsdl" then
        .ok { out with deviceio := svc }
      else if s.namespaceUri = "http://www.onvif.org/ver10/media/wsdl" then
        .ok { out with media := svc }
      else if s.namespaceUri = "http://www.onvif.org/ver20/media/wsdl" then
        .ok { out with media2 := svc }
      else if s.namespaceUri = "http://www.onvif.org/ver20/imaging/wsdl" then
        .ok { out with imaging := svc }
      else if s.namespaceUri = "http://www.onvif.org/ver20/ptz/wsdl" then
        .ok { out with ptz := svc }
      else if s.namespaceUri = "http://www.onvif.org/ver20/analytics/wsdl" then
        .ok { out with analytics := svc }
      else
        -- unknown namespace: the code only logs it at debug level and moves on
        .ok out

/-- The whole for-loop of Device::new over the service list, with the
early returns of the loop body propagated. -/
def procServices (parseUrl : String → Except String Url) (creds : Option Credentials)
    (devicemgmt_uri base_uri : Url) (out : Device) :
    List Service → Except DeviceError Device
  | [] => .ok out
  | s :: rest =>
    match procService parseUrl creds devicemgmt_uri base_uri out s with
    | .error e => .error e
    | .ok out2 => procServices parseUrl creds devicemgmt_uri base_uri out2 rest

/-- Observable network operations of Device::new (only the GetServices
call; per-service clients are constructed but not invoked). -/
inductive NetOp where
  | getServicesCall (c : Client)
deriving DecidableEq, Repr

/-- Device::new after a successful credential check: build the primary
client, compute base_uri by replacing the path with /, invoke
GetServices (getServices is the transport collaborator), then run the
validation loop. -/
def deviceNewWithCreds (parseUrl : String → Except String Url)
    (getServices : Client → Except TransportError (List Service))
    (devicemgmt_uri : Url) (creds : Option Credentials) :
    Except DeviceError Device × List NetOp :=
  let out := initialDevice devicemgmt_uri creds
  let base_uri := devicemgmt_uri.setPath "/"
  match getServices out.devicemgmt with
  | .error e => (.error (DeviceError.fromTransport e), [.getServicesCall out.devicemgmt])
  | .ok services =>
    (procServices parseUrl creds devicemgmt_uri base_uri out services,
      [.getServicesCall out.devicemgmt])

/-- Device::new.  Returns the resolution result together with the list
of network operations performed, in order. -/
def Device.new (parseUrl : String → Except String Url)
    (getServices : Client → Except TransportError (List Service))
    (devicemgmt_uri : Url) (user pass : Option String) :
    Except DeviceError Device × List NetOp :=
  match credsFor user pass with
  | .error e => (.error e, [])
  | .ok creds => deviceNewWithCreds parseUrl getServices devicemgmt_uri creds

/-- C3: supplying exactly one of username and password makes Device::new
return Unauthorized immediately, with an empty network trace, for every
possible transport collaborator and URL parser. -/
theorem resolve_mixed_credentials_unauthorized_no_network
    (parseUrl : String → Except String Url)
    (getServices : Client → Except TransportError (List Service))
    (devicemgmt_uri : Url) (u p : String) :
    Device.new parseUrl getServices devicemgmt_uri (some u) none
      = (.error (.Unauthorized "Username and password must be specified together"), [])
    ∧ Device.new parseUrl getServices devicemgmt_uri none (some p)
      = (.error (.Unauthorized "Username and password must be specified together"), []) := by
  constructor <;> rfl

/-- Splitting the validation loop at any point: processing a
concatenated list first processes the front, and continues with the
back only when the front succeeded. -/
theorem procServices_append (parseUrl : String → Except String Url)
    (creds : Option Credentials) (devicemgmt_uri base_uri : Url) (out : Device)
    (l1 l2 : List Service) :
    procServices parseUrl creds devicemgmt_uri base_uri out (l1 ++ l2)
      = match procServices parseUrl creds devicemgmt_uri base_uri out l1 with
        | .error e => .error e
        | .ok out2 => procServices parseUrl creds devicemgmt_uri base_uri out2 l2 := by
  induction l1 generalizing out with
  | nil => simp [procServices]
  | cons s rest ih =>
    simp only [List.cons_append, procServices]
    cases procService parseUrl creds devicemgmt_uri base_uri out s with
    | error e => simp
    | ok out2 => simpa using ih out2

/-- C1: a service descriptor whose parsed address does not start with
the primary endpoint URI with its path replaced by /, reached after any
number of successfully validated descriptors, makes Device::new return
an UnexpectedBehavior error whose message names the offending address
and the expected base; no device handle is produced. -/
theorem resolve_service_uri_outside_base_aborts
    (parseUrl : String → Except String Url)
    (getServices : Client → Except TransportError (List Service))
    (devicemgmt_uri : Url) (user pass : Option String) (creds : Option Credentials)
    (pre post : List Service) (s : Service) (u : Url) (out2 : Device)
    (hcreds : credsFor user pass = .ok creds)
    (hget : getServices (Client.build devicemgmt_uri creds serviceTimeout)
      = .ok (pre ++ s :: post))
    (hpre : procServices parseUrl creds devicemgmt_uri (devicemgmt_uri.setPath "/")
      (initialDevice devicemgmt_uri creds) pre = .ok out2)
    (hparse : parseUrl s.x_addr = .ok u)
    (hbad : strStartsWith u.asStr (devicemgmt_uri.setPath "/").asStr = false) :
    (Device.new parseUrl getServices devicemgmt_uri user pass).1
      = .error (.UnexpectedBehavior
          ("Service URI " ++ s.x_addr ++ " is not within base URI "
            ++ (devicemgmt_uri.setPath "/").asStr)) := by
  have hinit : (initialDevice devicemgmt_uri creds).devicemgmt
      = Client.build devicemgmt_uri creds serviceTimeout := rfl
  simp only [Device.new, hcreds, deviceNewWithCreds, hinit, hget]
  rw [procServices_append, hpre]
  simp [procServices, procService, hparse, hbad]

def sampleDm : Url := ⟨"http://10.0.0.5", "/onvif/device_service"⟩

def sampleEvilSvc : Service :=
  ⟨"http://evil.example/x", "http://www.onvif.org/ver10/events/wsdl"⟩

def sampleParse1 : String → Except String Url :=
  fun a => if a = "http://evil.example/x" then .ok ⟨"http://evil.example", "/x"⟩
    else .error "relative URL without a base"

def sampleGetServices1 : Client → Except TransportError (List Service) :=
  fun _ => .ok [sampleEvilSvc]

/-- Witness for C1 at a concrete device and service list. -/
theorem resolve_service_uri_outside_base_aborts_witness :
    (Device.new sampleParse1 sampleGetServices1 sampleDm (some "admin") (some "pw")).1
      = .error (.UnexpectedBehavior
          ("Service URI " ++ "http://evil.example/x" ++ " is not within base URI "
            ++ (sampleDm.setPath "/").asStr)) :=
  resolve_service_uri_outside_base_aborts sampleParse1 sampleGetServices1 sampleDm
    (some "admin") (some "pw") (some ⟨"admin", "pw"⟩) [] [] sampleEvilSvc
    ⟨"http://evil.example", "/x"⟩ (initialDevice sampleDm (some ⟨"admin", "pw"⟩))
    rfl rfl rfl rfl (by decide)

/-- The eight namespace strings the resolution loop recognizes: the
device-management namespace plus the seven optional services. -/
def knownNamespaces : List String :=
  ["http://www.onvif.org/ver10/device/wsdl",
   "http://www.onvif.org/ver10/events/wsdl",
   "http://www.onvif.org/ver10/deviceIO/wsdl",
   "http://www.onvif.org/ver10/media/wsdl",
   "http://www.onvif.org/ver20/media/wsdl",
   "http://www.onvif.org/ver20/imaging/wsdl",
   "http://www.onvif.org/ver20/ptz/wsdl",
   "http://www.onvif.org/ver20/analytics/wsdl"]

/-- Helper: a descriptor that passes the base check and carries an
unrecognized namespace leaves the device state untouched. -/
theorem procService_unknown_ns (parseUrl : String → Except String Url)
    (creds : Option Credentials) (devicemgmt_uri : Url) (out : Device)
    (s : Service) (u : Url)
    (hparse : parseUrl s.x_addr = .ok u)
    (hsw : strStartsWith u.asStr ((devicemgmt_uri.setPath "/").asStr) = true)
    (hns : s.namespaceUri ∉ knownNamespaces) :
    procService parseUrl creds devicemgmt_uri (devicemgmt_uri.setPath "/") out s
      = .ok out := by
  simp only [knownNamespaces, List.mem_cons, List.not_mem_nil, or_false, not_or] at hns
  obtain ⟨h1, h2, h3, h4, h5, h6, h7, h8⟩ := hns
  simp [procService, hparse, hsw, h1, h2, h3, h4, h5, h6, h7, h8]

/-- C2: for a descriptor carrying the device-management namespace,
Device::new fails with UnexpectedBehavior whenever the descriptor's
address string differs from the primary endpoint's string form; when
it is exactly equal, processing the descriptor leaves every service
slot of the handle untouched. -/
theorem resolve_devicemgmt_descriptor_exact_match :
    (∀ (parseUrl : String → Except String Url)
       (getServices : Client → Except TransportError (List Service))
       (devicemgmt_uri : Url) (user pass : Option String)
       (creds : Option Credentials) (pre post : List Service)
       (s : Service) (u : Url) (out2 : Device),
       credsFor user pass = .ok creds →
       getServices (Client.build devicemgmt_uri creds serviceTimeout)
         = .ok (pre ++ s :: post) →
       procServices parseUrl creds devicemgmt_uri (devicemgmt_uri.setPath "/")
         (initialDevice devicemgmt_uri creds) pre = .ok out2 →
       s.namespaceUri = "http://www.onvif.org/ver10/device/wsdl" →
       parseUrl s.x_addr = .ok u →
       s.x_addr ≠ devicemgmt_uri.asStr →
       ∃ msg, (Device.new parseUrl getServices devicemgmt_uri user pass).1
         = .error (.UnexpectedBehavior msg))
    ∧ (∀ (parseUrl : String → Except String Url) (creds : Option Credentials)
         (devicemgmt_uri : Url) (out : Device) (s : Service) (u : Url),
       s.namespaceUri = "http://www.onvif.org/ver10/device/wsdl" →
       parseUrl s.x_addr = .ok u →
       strStartsWith u.asStr ((devicemgmt_uri.setPath "/").asStr) = true →
       s.x_addr = devicemgmt_uri.asStr →
       procService parseUrl creds devicemgmt_uri (devicemgmt_uri.setPath "/") out s
         = .ok out) := by
  constructor
  · intro parseUrl getServices dm user pass creds pre post s u out2
      hcreds hget hpre hns hparse hne
    have hinit : (initialDevice dm creds).devicemgmt
        = Client.build dm creds serviceTimeout := rfl
    simp only [Device.new, hcreds, deviceNewWithCreds, hinit, hget]
    rw [procServices_append, hpre]
    cases hsw : strStartsWith u.asStr ((dm.setPath "/").asStr) with
    | false =>
      refine ⟨"Service URI " ++ s.x_addr ++ " is not within base URI "
        ++ (dm.setPath "/").asStr, ?_⟩
      simp [procServices, procService, hparse, hsw]
    | true =>
      refine ⟨"advertised device mgmt uri " ++ s.x_addr ++ " not expected "
        ++ dm.asStr, ?_⟩
      simp [procServices, procService, hparse, hsw, hns, hne]
  · intro parseUrl creds dm out s u hns hparse hsw heq
    have hparse2 : parseUrl dm.asStr = .ok u := heq ▸ hparse
    simp [procService, hparse, hparse2, hsw, hns, heq]

def sampleMgmtBad : Service :=
  ⟨"http://10.0.0.5/onvif/device_service2", "http://www.onvif.org/ver10/device/wsdl"⟩

def sampleMgmtGood : Service :=
  ⟨"http://10.0.0.5/onvif/device_service", "http://www.onvif.org/ver10/device/wsdl"⟩

def sampleParse2 : String → Except String Url :=
  fun a =>
    if a = "http://10.0.0.5/onvif/device_service2" then
      .ok ⟨"http://10.0.0.5", "/onvif/device_service2"⟩
    else if a = "http://10.0.0.5/onvif/device_service" then
      .ok ⟨"http://10.0.0.5", "/onvif/device_service"⟩
    else
      .error "relative URL without a base"

def sampleGetServices2 : Client → Except TransportError (List Service) :=
  fun _ => .ok [sampleMgmtBad]

def sampleCreds : Option Credentials := some ⟨"admin", "pw"⟩

/-- Witness for C2 at a concrete mismatching and a concrete matching
device-management descriptor. -/
theorem resolve_devicemgmt_descriptor_exact_match_witness :
    (∃ msg, (Device.new sampleParse2 sampleGetServices2 sampleDm
        (some "admin") (some "pw")).1 = .error (.UnexpectedBehavior msg))
    ∧ procService sampleParse2 sampleCreds sampleDm (sampleDm.setPath "/")
        (initialDevice sampleDm sampleCreds) sampleMgmtGood
        = .ok (initialDevice sampleDm sampleCreds) :=
  ⟨resolve_devicemgmt_descriptor_exact_match.1 sampleParse2 sampleGetServices2
      sampleDm (some "admin") (some "pw") sampleCreds [] [] sampleMgmtBad
      ⟨"http://10.0.0.5", "/onvif/device_service2"⟩
      (initialDevice sampleDm sampleCreds) rfl rfl rfl rfl rfl (by decide),
   resolve_devicemgmt_descriptor_exact_match.2 sampleParse2 sampleCreds
      sampleDm (initialDevice sampleDm sampleCreds) sampleMgmtGood
      ⟨"http://10.0.0.5", "/onvif/device_service"⟩ rfl rfl (by decide) rfl⟩

/-- C5: a descriptor whose address passes the base check but whose
namespace is outside the known set is skipped: the step leaves the
handle unchanged, and a resolution whose service list holds only such
a descriptor succeeds with every optional slot absent. -/
theorem resolve_unknown_namespace_skipped :
    (∀ (parseUrl : String → Except String Url) (creds : Option Credentials)
       (devicemgmt_uri : Url) (out : Device) (s : Service) (u : Url),
       parseUrl s.x_addr = .ok u →
       strStartsWith u.asStr ((devicemgmt_uri.setPath "/").asStr) = true →
       s.namespaceUri ∉ knownNamespaces →
       procService parseUrl creds devicemgmt_uri (devicemgmt_uri.setPath "/") out s
         = .ok out)
    ∧ (∀ (parseUrl : String → Except String Url)
         (getServices : Client → Except TransportError (List Service))
         (devicemgmt_uri : Url) (user pass : Option String)
         (creds : Option Credentials) (s : Service) (u : Url),
       credsFor user pass = .ok creds →
       getServices (Client.build devicemgmt_uri creds serviceTimeout) = .ok [s] →
       parseUrl s.x_addr = .ok u →
       strStartsWith u.asStr ((devicemgmt_uri.setPath "/").asStr) = true →
       s.namespaceUri ∉ knownNamespaces →
       (Device.new parseUrl getServices devicemgmt_uri user pass).1
         = .ok (initialDevice devicemgmt_uri creds)) := by
  constructor
  · intro parseUrl creds dm out s u hparse hsw hns
    exact procService_unknown_ns parseUrl creds dm out s u hparse hsw hns
  · intro parseUrl getServices dm user pass creds s u hcreds hget hparse hsw hns
    have hinit : (initialDevice dm creds).devicemgmt
        = Client.build dm creds serviceTimeout := rfl
    simp only [Device.new, hcreds, deviceNewWithCreds, hinit, hget]
    simp only [procServices,
      procService_unknown_ns parseUrl creds dm (initialDevice dm creds) s u
        hparse hsw hns]

def sampleUnknownSvc : Service :=
  ⟨"http://10.0.0.5/onvif/foo", "http://www.onvif.org/ver10/foo/wsdl"⟩

def sampleParse3 : String → Except String Url :=
  fun a =>
    if a = "http://10.0.0.5/onvif/foo" then .ok ⟨"http://10.0.0.5", "/onvif/foo"⟩
    else .error "relative URL without a base"

def sampleGetServices3 : Client → Except TransportError (List Service) :=
  fun _ => .ok [sampleUnknownSvc]

/-- Witness for C5 at a concrete unrecognized-namespace descriptor. -/
theorem resolve_unknown_namespace_skipped_witness :
    procService sampleParse3 sampleCreds sampleDm (sampleDm.setPath "/")
        (initialDevice sampleDm sampleCreds) sampleUnknownSvc
        = .ok (initialDevice sampleDm sampleCreds)
    ∧ (Device.new sampleParse3 sampleGetServices3 sampleDm
        (some "admin") (some "pw")).1 = .ok (initialDevice sampleDm sampleCreds) :=
  ⟨resolve_unknown_namespace_skipped.1 sampleParse3 sampleCreds sampleDm
      (initialDevice sampleDm sampleCreds) sampleUnknownSvc
      ⟨"http://10.0.0.5", "/onvif/foo"⟩ rfl (by decide) (by decide),
   resolve_unknown_namespace_skipped.2 sampleParse3 sampleGetServices3 sampleDm
      (some "admin") (some "pw") sampleCreds sampleUnknownSvc
      ⟨"http://10.0.0.5", "/onvif/foo"⟩ rfl rfl rfl (by decide) (by decide)⟩

/-- An ONVIF user account.  level and extension are opaque pass-through
payloads in this program, so they are modelled as a plain string and an
optional string. -/
structure User where
  username : String
  password : Option String
  userLevel : String
  extension : Option String
deriving DecidableEq, Repr

/-- GetUsersResponse: the list of accounts returned by the device. -/
structure GetUsersResponse where
  user : List User
deriving DecidableEq, Repr

/-- The SetUser request record; Default::default() gives an empty user
vector and Device::set_user pushes exactly one entry. -/
structure SetUser where
  user : List User
deriving DecidableEq, Repr

/-- SystemRebootResponse with its free-text message. -/
structure SystemRebootResponse where
  message : String
deriving DecidableEq, Repr

/-- Observable operations the DeviceHandle issues on the transport. -/
inductive DevOp where
  | getUsersCall (c : Client)
  | setUserCall (c : Client) (req : SetUser)
  | systemRebootCall (c : Client)
deriving DecidableEq, Repr

/-- Device::get_users: one GetUsers invocation on the devicemgmt
client; the response's user vector is returned, transport errors are
converted through From. -/
def Device.get_users (self : Device)
    (resp : Client → Except TransportError GetUsersResponse) :
    Except DeviceError (List User) × List DevOp :=
  match resp self.devicemgmt with
  | .error e => (.error (DeviceError.fromTransport e), [.getUsersCall self.devicemgmt])
  | .ok r => (.ok r.user, [.getUsersCall self.devicemgmt])

/-- Device::set_user: builds a SetUser request holding exactly the
given user and issues one SetUser invocation on the devicemgmt client. -/
def Device.set_user (self : Device)
    (resp : Client → SetUser → Except TransportError Unit) (user : User) :
    Except DeviceError Unit × List DevOp :=
  let req : SetUser := ⟨[user]⟩
  match resp self.devicemgmt req with
  | .error e => (.error (DeviceError.fromTransport e), [.setUserCall self.devicemgmt req])
  | .ok _ => (.ok (), [.setUserCall self.devicemgmt req])

/-- Device::system_reboot: one SystemReboot invocation on the
devicemgmt client, returning the response message. -/
def Device.system_reboot (self : Device)
    (resp : Client → Except TransportError SystemRebootResponse) :
    Except DeviceError String × List DevOp :=
  match resp self.devicemgmt with
  | .error e => (.error (DeviceError.fromTransport e), [.systemRebootCall self.devicemgmt])
  | .ok r => (.ok r.message, [.systemRebootCall self.devicemgmt])

/-- The SetUser branch of run_command in main.rs: list the users, take
the first one whose username equals the argument, and either report
not-found (exit status -1, no update) or update with only the password
replaced. -/
def runSetUser (device : Device)
    (getUsersResp : Client → Except TransportError GetUsersResponse)
    (setUserResp : Client → SetUser → Except TransportError Unit)
    (username password : String) :
    Except DeviceError Int × List DevOp :=
  match Device.get_users device getUsersResp with
  | (.error e, t) => (.error e, t)
  | (.ok users, t) =>
    match (users.filter (fun u2 => u2.username == username)).head? with
    | some existing_user =>
      let update_user : User :=
        ⟨username, some password, existing_user.userLevel, existing_user.extension⟩
      match Device.set_user device setUserResp update_user with
      | (.error e, t2) => (.error e, t ++ t2)
      | (.ok _, t2) => (.ok 0, t ++ t2)
    | none => (.ok (-1), t)

/-- C4: setUser on an absent username returns the not-found outcome
(status -1) with no update call issued; on a present username the
update request carries the existing account's level and extension
unchanged, with only the password replaced. -/
theorem set_user_preserves_level_and_extension :
    (∀ (device : Device)
       (getUsersResp : Client → Except TransportError GetUsersResponse)
       (setUserResp : Client → SetUser → Except TransportError Unit)
       (username password : String) (users : List User),
       getUsersResp device.devicemgmt = .ok ⟨users⟩ →
       (∀ u2 ∈ users, u2.username ≠ username) →
       runSetUser device getUsersResp setUserResp username password
         = (.ok (-1), [.getUsersCall device.devicemgmt]))
    ∧ (∀ (device : Device)
         (getUsersResp : Client → Except TransportError GetUsersResponse)
         (setUserResp : Client → SetUser → Except TransportError Unit)
         (username password : String) (users : List User) (eu : User),
       getUsersResp device.devicemgmt = .ok ⟨users⟩ →
       (users.filter (fun u2 => u2.username == username)).head? = some eu →
       (runSetUser device getUsersResp setUserResp username password).2
         = [.getUsersCall device.devicemgmt,
            .setUserCall device.devicemgmt
              ⟨[⟨username, some password, eu.userLevel, eu.extension⟩]⟩]) := by
  constructor
  · intro device g sresp username password users hget hne
    have hf : users.filter (fun u2 => u2.username == username) = [] := by
      rw [List.filter_eq_nil_iff]
      intro a ha
      simpa using hne a ha
    simp [runSetUser, Device.get_users, hget, hf]
  · intro device g sresp username password users eu hget hfind
    simp only [runSetUser, Device.get_users, hget, hfind]
    cases hresp : sresp device.devicemgmt
        ⟨[⟨username, some password, eu.userLevel, eu.extension⟩]⟩ with
    | error e => simp [Device.set_user, hresp]
    | ok r => simp [Device.set_user, hresp]

def sampleDevice : Device := initialDevice sampleDm sampleCreds

def sampleUsers : List User :=
  [⟨"alice", none, "Administrator", none⟩, ⟨"bob", none, "User", some "ext"⟩]

def sampleGetUsersResp : Client → Except TransportError GetUsersResponse :=
  fun _ => .ok ⟨sampleUsers⟩

def sampleSetUserResp : Client → SetUser → Except TransportError Unit :=
  fun _ _ => .ok ()

/-- Witness for C4 at a concrete account list: carol is absent, bob is
present with level User and extension ext. -/
theorem set_user_preserves_level_and_extension_witness :
    runSetUser sampleDevice sampleGetUsersResp sampleSetUserResp "carol" "newpw"
      = (.ok (-1), [.getUsersCall sampleDevice.devicemgmt])
    ∧ (runSetUser sampleDevice sampleGetUsersResp sampleSetUserResp "bob" "newpw").2
      = [.getUsersCall sampleDevice.devicemgmt,
         .setUserCall sampleDevice.devicemgmt
           ⟨[⟨"bob", some "newpw", "User", some "ext"⟩]⟩] :=
  ⟨set_user_preserves_level_and_extension.1 sampleDevice sampleGetUsersResp
      sampleSetUserResp "carol" "newpw" sampleUsers rfl (by decide),
   set_user_preserves_level_and_extension.2 sampleDevice sampleGetUsersResp
      sampleSetUserResp "bob" "newpw" sampleUsers ⟨"bob", none, "User", some "ext"⟩
      rfl (by decide)⟩

/-- C8 counterexample: an Authorization transport error during
get_users is remapped to the Unauthorized kind, not propagated as the
Transport kind. -/
theorem transport_error_passthrough_counterexample :
    (Device.get_users sampleDevice (fun _ => .error (.Authorization "denied"))).1
      = .error (.Unauthorized "denied")
    ∧ (Device.get_users sampleDevice (fun _ => .error (.Authorization "denied"))).1
      ≠ .error (.Transport (.Authorization "denied")) := by
  constructor
  · rfl
  · simp [Device.get_users, DeviceError.fromTransport]

/-- C8 amended: a non-Authorization transport error from the
collaborator is propagated unchanged as the Transport kind by
get_users, set_user and system_reboot; an Authorization transport
error is surfaced as the Unauthorized kind with the same message; in
every case the operation issues exactly one transport invocation (no
retry). -/
theorem transport_error_passthrough_amended (e : TransportError)
    (device : Device) (u : User) :
    ((∀ msg, e ≠ .Authorization msg) →
      (Device.get_users device (fun _ => .error e)).1 = .error (.Transport e)
      ∧ (Device.set_user device (fun _ _ => .error e) u).1 = .error (.Transport e)
      ∧ (Device.system_reboot device (fun _ => .error e)).1 = .error (.Transport e))
    ∧ (∀ msg,
      (Device.get_users device (fun _ => .error (.Authorization msg))).1
        = .error (.Unauthorized msg)
      ∧ (Device.set_user device (fun _ _ => .error (.Authorization msg)) u).1
        = .error (.Unauthorized msg)
      ∧ (Device.system_reboot device (fun _ => .error (.Authorization msg))).1
        = .error (.Unauthorized msg))
    ∧ (Device.get_users device (fun _ => .error e)).2
        = [.getUsersCall device.devicemgmt]
    ∧ (Device.set_user device (fun _ _ => .error e) u).2
        = [.setUserCall device.devicemgmt ⟨[u]⟩]
    ∧ (Device.system_reboot device (fun _ => .error e)).2
        = [.systemRebootCall device.devicemgmt] := by
  refine ⟨?_, fun msg => ⟨rfl, rfl, rfl⟩, rfl, rfl, rfl⟩
  intro h
  cases e with
  | Authorization msg => exact absurd rfl (h msg)
  | Other msg => exact ⟨rfl, rfl, rfl⟩

def sampleUser : User := ⟨"alice", none, "Administrator", none⟩

/-- Witness for the amended C8 at a concrete non-Authorization
transport error. -/
theorem transport_error_passthrough_amended_witness :
    (Device.get_users sampleDevice (fun _ => .error (.Other "boom"))).1
      = .error (.Transport (.Other "boom")) :=
  (((transport_error_passthrough_amended (.Other "boom") sampleDevice sampleUser).1
    (by simp)).1)

/-- A discovery probe-match entry: its scope token set plus the rest
of the descriptive payload, kept as one opaque string. -/
structure ProbeMatch where
  scopes : List String
  payload : String
deriving DecidableEq, Repr

/-- ProbeMatch::find_in_scopes of the ws-discovery collaborator:
looks the given literal token up in the scope set (scope tokens are
compared by exact match). -/
def ProbeMatch.find_in_scopes (pm : ProbeMatch) (scope : String) : Option String :=
  pm.scopes.find? (fun s => s == scope)

/-- The probe_matches element of a discovery response. -/
structure ProbeMatches where
  probe_match : List ProbeMatch
deriving DecidableEq, Repr

/-- The body of a discovery response envelope. -/
structure EnvelopeBody where
  probe_matches : ProbeMatches
deriving DecidableEq, Repr

/-- A parsed discovery response envelope. -/
structure Envelope where
  body : EnvelopeBody
deriving DecidableEq, Repr

/-- The filter applied to one envelope in discover(): keep exactly the
probe matches whose scopes contain the ONVIF organization token; these
are the entries printed to the caller. -/
def reportedMatches (envelope : Envelope) : List ProbeMatch :=
  envelope.body.probe_matches.probe_match.filter
    (fun probe_match => (probe_match.find_in_scopes "onvif://www.onvif.org").isSome)

/-- An IPv4 address as four octets. -/
structure Ipv4 where
  o1 : Nat
  o2 : Nat
  o3 : Nat
  o4 : Nat
deriving DecidableEq, Repr

/-- Ipv4Addr::is_loopback: first octet 127. -/
def Ipv4.is_loopback (ip : Ipv4) : Bool := ip.o1 == 127

/-- std::net::IpAddr. -/
inductive IpAddr where
  | v4 (ip : Ipv4)
  | v6
deriving DecidableEq, Repr

/-- A nix socket address: either an internet address or some other
address family. -/
inductive SockAddr where
  | inet (ip : IpAddr)
  | otherFamily
deriving DecidableEq, Repr

/-- One entry of nix::ifaddrs::getifaddrs: its optional address. -/
structure IfaceEntry where
  address : Option SockAddr
deriving DecidableEq, Repr

/-- The interface filter chain of discover(): drop entries without an
address, keep internet addresses, keep IPv4, drop loopback. -/
def qualifyingIpv4s (ifaces : List IfaceEntry) : List Ipv4 :=
  ((((ifaces.filterMap (fun iface => iface.address)).filterMap
      (fun iface_addr => match iface_addr with
        | .inet ip => some ip
        | .otherFamily => none)).filterMap
      (fun ip => match ip with
        | .v4 ipv4 => some ipv4
        | .v6 => none))).filter
      (fun ip => !ip.is_loopback)

/-- A bound UDP socket, identified abstractly. -/
structure Socket where
  id : Nat
deriving DecidableEq, Repr

/-- An I/O error from the UDP receive: the receive timeout elapsing,
or any other socket error. -/
inductive IoErr where
  | timedOut
  | other (msg : String)
deriving DecidableEq, Repr

/-- The per-interface receive loop of discover().  The stream lists the
successive outcomes of recv_string; a real socket eventually yields the
timeout error, so an exhausted stream is read as that timeout.  The
first error outcome breaks the loop; a datagram whose parse fails hits
the unconditional unwrap, modelled as the error case of the result. -/
def recvLoop (parseEnv : String → Option Envelope) :
    List (Except IoErr String) → Except Unit (List ProbeMatch)
  | [] => .ok []
  | .error _ :: _ => .ok []
  | .ok response :: rest =>
    match parseEnv response with
    | none => .error ()
    | some envelope =>
      match recvLoop parseEnv rest with
      | .error e => .error e
      | .ok ms => .ok (reportedMatches envelope ++ ms)

/-- The overall outcome of a discover() run: normal return, an error
return, or a panic at the response-parsing unwrap. -/
inductive DiscoverResult where
  | ok
  | err (e : DeviceError)
  | panic
deriving DecidableEq, Repr

/-- The per-interface half of discover(): send a probe from each
qualifying address in turn and run its receive loop, collecting every
match printed along the way. -/
def discoverGo (sendProbe : Ipv4 → Except String Socket)
    (recvs : Socket → List (Except IoErr String))
    (parseEnv : String → Option Envelope) :
    List Ipv4 → List ProbeMatch × DiscoverResult
  | [] => ([], .ok)
  | ip :: rest =>
    match sendProbe ip with
    | .error e => ([], .err (.Unknown (some ("Could not send probe: " ++ e))))
    | .ok socket =>
      match recvLoop parseEnv (recvs socket) with
      | .error _ => ([], .panic)
      | .ok ms =>
        match discoverGo sendProbe recvs parseEnv rest with
        | (ms2, r) => (ms ++ ms2, r)

/-- discover() of discovery.rs.  The interface enumeration, the probe
send, the receive stream of each socket and the envelope parser are the
external collaborators; the result carries the matches reported plus
the run outcome. -/
def discover (ifacesResult : Except String (List IfaceEntry))
    (sendProbe : Ipv4 → Except String Socket)
    (recvs : Socket → List (Except IoErr String))
    (parseEnv : String → Option Envelope) :
    List ProbeMatch × DiscoverResult :=
  match ifacesResult with
  | .error e => ([], .err (.Unknown (some ("Could not get local IP addresses: " ++ e))))
  | .ok ifaces => discoverGo sendProbe recvs parseEnv (qualifyingIpv4s ifaces)

/-- Helper: the receive loop returns normally when every successfully
received datagram parses. -/
theorem recvLoop_ok_of_parses (parseEnv : String → Option Envelope)
    (stream : List (Except IoErr String))
    (h : ∀ r ∈ stream, ∀ str, r = .ok str → ∃ env, parseEnv str = some env) :
    ∃ ms, recvLoop parseEnv stream = .ok ms := by
  induction stream with
  | nil => exact ⟨[], rfl⟩
  | cons r rest ih =>
    cases r with
    | error e => exact ⟨[], rfl⟩
    | ok str =>
      obtain ⟨env, henv⟩ := h (.ok str) (List.mem_cons_self _ _) str rfl
      obtain ⟨ms, hms⟩ := ih (fun r2 hr2 str2 h2 => h r2 (List.mem_cons_of_mem _ hr2) str2 h2)
      exact ⟨reportedMatches env ++ ms, by simp [recvLoop, henv, hms]⟩

/-- Helper: the per-interface sweep returns the normal outcome when
every probe send succeeds and every receive loop returns normally. -/
theorem discoverGo_ok_of (sendProbe : Ipv4 → Except String Socket)
    (recvs : Socket → List (Except IoErr String))
    (parseEnv : String → Option Envelope) (ips : List Ipv4)
    (hsend : ∀ ip ∈ ips, ∃ socket, sendProbe ip = .ok socket)
    (hloop : ∀ socket, ∃ ms, recvLoop parseEnv (recvs socket) = .ok ms) :
    (discoverGo sendProbe recvs parseEnv ips).2 = .ok := by
  induction ips with
  | nil => rfl
  | cons ip rest ih =>
    obtain ⟨socket, hsock⟩ := hsend ip (List.mem_cons_self _ _)
    obtain ⟨ms, hms⟩ := hloop socket
    have hrest := ih (fun ip2 h2 => hsend ip2 (List.mem_cons_of_mem _ h2))
    cases hgo : discoverGo sendProbe recvs parseEnv rest with
    | mk ms2 r =>
      rw [hgo] at hrest
      simp [discoverGo, hsock, hms, hgo]
      exact hrest

/-- C6: a probe match is reported exactly when it appears in the parsed
envelope and its scope set contains the literal ONVIF organization
token; in particular a match scoped only urn:other is discarded while
one also carrying the ONVIF token is kept. -/
theorem discovery_scope_filter :
    (∀ (envelope : Envelope) (pm : ProbeMatch),
       pm ∈ reportedMatches envelope ↔
         pm ∈ envelope.body.probe_matches.probe_match
           ∧ "onvif://www.onvif.org" ∈ pm.scopes)
    ∧ reportedMatches
        ⟨⟨⟨[⟨["urn:other"], "cam1"⟩,
            ⟨["onvif://www.onvif.org", "urn:other"], "cam2"⟩]⟩⟩⟩
        = [⟨["onvif://www.onvif.org", "urn:other"], "cam2"⟩] := by
  constructor
  · intro envelope pm
    simp [reportedMatches, List.mem_filter, ProbeMatch.find_in_scopes,
      List.find?_isSome, beq_iff_eq]
  · rfl

def sampleIfaces : List IfaceEntry :=
  [⟨some (.inet (.v4 ⟨127, 0, 0, 1⟩))⟩,
   ⟨some (.inet (.v4 ⟨192, 168, 1, 10⟩))⟩,
   ⟨none⟩]

def sampleSendProbe : Ipv4 → Except String Socket := fun _ => .ok ⟨0⟩

def sampleRecvsTimeout : Socket → List (Except IoErr String) :=
  fun _ => [.error .timedOut]

def sampleParseEnv : String → Option Envelope := fun _ => none

/-- C9: a received datagram that fails to parse as a probe-matches
envelope is never skipped: the loop aborts at the unconditional unwrap
regardless of what follows in the stream, and a discovery run whose
sole interface receives such a datagram ends in the panic outcome
rather than continuing until its timeout. -/
theorem discovery_malformed_response_aborts :
    (∀ (parseEnv : String → Option Envelope) (str : String)
       (rest : List (Except IoErr String)),
       parseEnv str = none →
       recvLoop parseEnv (.ok str :: rest) = .error ())
    ∧ (∀ (ifaces : List IfaceEntry) (sendProbe : Ipv4 → Except String Socket)
         (recvs : Socket → List (Except IoErr String))
         (parseEnv : String → Option Envelope) (ip : Ipv4) (socket : Socket)
         (str : String) (rest : List (Except IoErr String)),
       qualifyingIpv4s ifaces = [ip] →
       sendProbe ip = .ok socket →
       recvs socket = .ok str :: rest →
       parseEnv str = none →
       discover (.ok ifaces) sendProbe recvs parseEnv = ([], .panic)) := by
  constructor
  · intro parseEnv str rest h
    simp [recvLoop, h]
  · intro ifaces sendProbe recvs parseEnv ip socket str rest hq hsend hrecvs hparse
    simp [discover, hq, discoverGo, hsend, hrecvs, recvLoop, hparse]

def sampleRecvsBad : Socket → List (Except IoErr String) :=
  fun _ => [.ok "<garbage", .error .timedOut]

def sampleIfaceOne : List IfaceEntry := [⟨some (.inet (.v4 ⟨192, 168, 1, 10⟩))⟩]

/-- Witness for C9: a malformed first datagram on the only interface
makes the whole run panic. -/
theorem discovery_malformed_response_aborts_witness :
    recvLoop sampleParseEnv (.ok "<garbage" :: [.error .timedOut]) = .error ()
    ∧ discover (.ok sampleIfaceOne) sampleSendProbe sampleRecvsBad sampleParseEnv
        = ([], .panic) :=
  ⟨discovery_malformed_response_aborts.1 sampleParseEnv "<garbage"
      [.error .timedOut] rfl,
   discovery_malformed_response_aborts.2 sampleIfaceOne sampleSendProbe
      sampleRecvsBad sampleParseEnv ⟨192, 168, 1, 10⟩ ⟨0⟩ "<garbage"
      [.error .timedOut] rfl rfl rfl rfl⟩

/-- C10: any receive error, not only the timeout, ends an interface's
receive loop exactly like a timeout does: the loop result is identical
for every error kind, and a run whose receive streams all begin with an
arbitrary socket error still ends with the normal outcome, surfacing
no receive error. -/
theorem discovery_any_recv_error_ends_loop :
    (∀ (parseEnv : String → Option Envelope) (e : IoErr)
       (rest : List (Except IoErr String)),
       recvLoop parseEnv (.error e :: rest)
         = recvLoop parseEnv (.error .timedOut :: rest)
       ∧ recvLoop parseEnv (.error e :: rest) = .ok [])
    ∧ (∀ (ifaces : List IfaceEntry) (sendProbe : Ipv4 → Except String Socket)
         (parseEnv : String → Option Envelope) (errOf : Socket → IoErr)
         (tails : Socket → List (Except IoErr String)),
       (∀ ip ∈ qualifyingIpv4s ifaces, ∃ socket, sendProbe ip = .ok socket) →
       (discover (.ok ifaces) sendProbe
          (fun socket => .error (errOf socket) :: tails socket) parseEnv).2 = .ok) := by
  constructor
  · intro parseEnv e rest
    exact ⟨rfl, rfl⟩
  · intro ifaces sendProbe parseEnv errOf tails hsend
    exact discoverGo_ok_of sendProbe _ parseEnv (qualifyingIpv4s ifaces) hsend
      (fun socket => ⟨[], rfl⟩)

/-- Witness for C10: a run whose only receive outcome is a non-timeout
socket error still ends with the normal outcome. -/
theorem discovery_any_recv_error_ends_loop_witness :
    (discover (.ok sampleIfaceOne) sampleSendProbe
        (fun _ => .error (.other "connection reset") :: []) sampleParseEnv).2
      = .ok :=
  discovery_any_recv_error_ends_loop.2 sampleIfaceOne sampleSendProbe
    sampleParseEnv (fun _ => .other "connection reset") (fun _ => [])
    (fun _ _ => ⟨⟨0⟩, rfl⟩)

/-- Helper: a block of interfaces whose sends succeed and whose receive
loops return normally does not change the run outcome produced by the
interfaces after it. -/
theorem discoverGo_result_append (sendProbe : Ipv4 → Except String Socket)
    (recvs : Socket → List (Except IoErr String))
    (parseEnv : String → Option Envelope) (pre rest : List Ipv4)
    (hsend : ∀ ip ∈ pre, ∃ socket, sendProbe ip = .ok socket)
    (hloop : ∀ socket, ∃ ms, recvLoop parseEnv (recvs socket) = .ok ms) :
    (discoverGo sendProbe recvs parseEnv (pre ++ rest)).2
      = (discoverGo sendProbe recvs parseEnv rest).2 := by
  induction pre with
  | nil => rfl
  | cons ip pre2 ih =>
    obtain ⟨socket, hsock⟩ := hsend ip (List.mem_cons_self _ _)
    obtain ⟨ms, hms⟩ := hloop socket
    have htail := ih (fun ip2 h2 => hsend ip2 (List.mem_cons_of_mem _ h2))
    simp only [List.cons_append, discoverGo, hsock, hms]
    cases hgo : discoverGo sendProbe recvs parseEnv (pre2 ++ rest) with
    | mk ms2 r =>
      rw [hgo] at htail
      simpa using htail

/-- C7 counterexample: with interface enumeration succeeding, a failing
probe send on the (sole, non-loopback) interface still aborts the whole
discovery run with an error, so interface-enumeration failure is not
the only failure fatal to the run. -/
theorem discovery_only_enumeration_fatal_counterexample :
    (discover (.ok sampleIfaceOne) (fun _ => .error "Network is unreachable")
        sampleRecvsTimeout sampleParseEnv).2
      = .err (.Unknown (some ("Could not send probe: " ++ "Network is unreachable")))
    ∧ (discover (.ok sampleIfaceOne) (fun _ => .error "Network is unreachable")
        sampleRecvsTimeout sampleParseEnv).2
      ≠ .ok := by
  constructor
  · rfl
  · decide

/-- C7 amended: the failures fatal to a discovery run are
interface-address enumeration failure, a probe-send failure on a
reached interface, and the parse-unwrap panic on a malformed datagram;
expiry of the receive timeout is normal control flow that ends that
interface's receive loop, and a run in which every probe send succeeds
and every received datagram parses ends with the normal outcome,
whatever receive errors end the per-interface loops. -/
theorem discovery_fatal_paths_and_timeout_normal :
    (∀ (e : String) (sendProbe : Ipv4 → Except String Socket)
       (recvs : Socket → List (Except IoErr String))
       (parseEnv : String → Option Envelope),
       discover (.error e) sendProbe recvs parseEnv
         = ([], .err (.Unknown (some ("Could not get local IP addresses: " ++ e)))))
    ∧ (∀ (ifaces : List IfaceEntry) (sendProbe : Ipv4 → Except String Socket)
         (recvs : Socket → List (Except IoErr String))
         (parseEnv : String → Option Envelope) (pre : List Ipv4) (ip : Ipv4)
         (rest : List Ipv4) (e : String),
       qualifyingIpv4s ifaces = pre ++ ip :: rest →
       (∀ ip2 ∈ pre, ∃ socket, sendProbe ip2 = .ok socket) →
       (∀ socket, ∃ ms, recvLoop parseEnv (recvs socket) = .ok ms) →
       sendProbe ip = .error e →
       (discover (.ok ifaces) sendProbe recvs parseEnv).2
         = .err (.Unknown (some ("Could not send probe: " ++ e))))
    ∧ (∀ (ifaces : List IfaceEntry) (sendProbe : Ipv4 → Except String Socket)
         (recvs : Socket → List (Except IoErr String))
         (parseEnv : String → Option Envelope) (ip : Ipv4) (socket : Socket)
         (str : String) (rest2 : List (Except IoErr String)),
       qualifyingIpv4s ifaces = [ip] →
       sendProbe ip = .ok socket →
       recvs socket = .ok str :: rest2 →
       parseEnv str = none →
       (discover (.ok ifaces) sendProbe recvs parseEnv).2 = .panic)
    ∧ (∀ (parseEnv : String → Option Envelope) (rest : List (Except IoErr String)),
       recvLoop parseEnv (.error .timedOut :: rest) = .ok [])
    ∧ (∀ (ifaces : List IfaceEntry) (sendProbe : Ipv4 → Except String Socket)
         (recvs : Socket → List (Except IoErr String))
         (parseEnv : String → Option Envelope),
       (∀ ip ∈ qualifyingIpv4s ifaces, ∃ socket, sendProbe ip = .ok socket) →
       (∀ socket r, r ∈ recvs socket → ∀ str, r = .ok str →
          ∃ env, parseEnv str = some env) →
       (discover (.ok ifaces) sendProbe recvs parseEnv).2 = .ok) := by
  refine ⟨fun e sendProbe recvs parseEnv => rfl, ?_, ?_,
    fun parseEnv rest => rfl, ?_⟩
  · intro ifaces sendProbe recvs parseEnv pre ip rest e hq hpre hloop hfail
    simp only [discover, hq]
    rw [discoverGo_result_append sendProbe recvs parseEnv pre (ip :: rest) hpre hloop]
    simp [discoverGo, hfail]
  · intro ifaces sendProbe recvs parseEnv ip socket str rest2 hq hsend hrecvs hparse
    simp [discover, hq, discoverGo, hsend, hrecvs, recvLoop, hparse]
  · intro ifaces sendProbe recvs parseEnv hsend hrecv
    exact discoverGo_ok_of sendProbe recvs parseEnv (qualifyingIpv4s ifaces) hsend
      (fun socket => recvLoop_ok_of_parses parseEnv (recvs socket)
        (fun r hr str h2 => hrecv socket r hr str h2))

/-- Witness for the amended C7: a concrete failing probe send aborts
the run with the corresponding error, and a concrete run whose receive
loop ends by timeout returns the normal outcome. -/
theorem discovery_fatal_paths_and_timeout_normal_witness :
    (discover (.ok sampleIfaceOne) (fun _ => .error "unreachable")
        sampleRecvsTimeout sampleParseEnv).2
      = .err (.Unknown (some ("Could not send probe: " ++ "unreachable")))
    ∧ (discover (.ok sampleIfaces) sampleSendProbe sampleRecvsTimeout
        sampleParseEnv).2 = .ok :=
  ⟨discovery_fatal_paths_and_timeout_normal.2.1 sampleIfaceOne
      (fun _ => .error "unreachable") sampleRecvsTimeout sampleParseEnv
      [] ⟨192, 168, 1, 10⟩ [] "unreachable" rfl
      (fun ip2 h2 => by cases h2)
      (fun _ => ⟨[], rfl⟩) rfl,
   discovery_fatal_paths_and_timeout_normal.2.2.2.2 sampleIfaces sampleSendProbe
      sampleRecvsTimeout sampleParseEnv (fun _ _ => ⟨⟨0⟩, rfl⟩)
      (by
        intro socket r hr str h2
        rw [sampleRecvsTimeout, List.mem_singleton] at hr
        rw [hr] at h2
        cases h2)⟩

end Camctrl
